import Mathlib

/-!
Verification of the audio normalization pipeline in `src/audio_conversion.py`
(functions `check_ffmpeg`, `convert_to_wav`, `convert_to_wav_with_ffmpeg`,
`convert_files_to_wav`).

The embedding models:
* the local filesystem as an association list from paths to file contents;
* the behaviour of the two conversion backends (the embedded pydub library
  and the external FFmpeg tool), of the FFmpeg capability probe and of the
  ffprobe metadata query as an explicit environment `Env`; exceptions raised
  by the Python code are modelled as explicit outcome constructors
  (`PydubRun.raised`, `FfmpegRun.failed`, `ProbeErr`), and the `try/except`
  blocks of the source as total case analysis on those outcomes;
* `tempfile.mkstemp` as a counter-indexed allocator `Env.temps` — note that
  `mkstemp` CREATES the (empty) file on disk, which the embedding reflects
  by writing an empty entry into the filesystem at allocation time;
* console output (`print` calls) as an accumulated list of lines, so that
  properties about the `quiet` flag are about something real.
-/

namespace AudioConversion

/-- File paths are strings, as in the Python source. -/
abbrev FPath := String

/-- The filesystem: an association list mapping each existing path to its
contents (a later binding shadows an earlier one, as in `fsWrite`). -/
abbrev FS := List (FPath × String)

/-- Model of `os.path.exists`: does `p` name an existing file? -/
def fsExists (fs : FS) (p : FPath) : Bool :=
  fs.any (fun e => e.1 == p)

/-- Read the contents of `p`, if it exists. -/
def fsRead (fs : FS) (p : FPath) : Option String :=
  (fs.find? (fun e => e.1 == p)).map (fun e => e.2)

/-- Model of `os.remove`: delete the entry for `p`. -/
def fsRemove (fs : FS) (p : FPath) : FS :=
  fs.filter (fun e => e.1 != p)

/-- Create or overwrite the file `p` with contents `c`. -/
def fsWrite (fs : FS) (p : FPath) (c : String) : FS :=
  (p, c) :: fsRemove fs p

/-- Split a character list on a separator character (`str.split(sep)`). -/
def splitOnChar (sep : Char) : List Char → List (List Char)
  | [] => [[]]
  | c :: cs =>
      let r := splitOnChar sep cs
      if c == sep then [] :: r
      else
        match r with
        | [] => [[c]]
        | x :: xs => (c :: x) :: xs

/-- The final path component, as `pathlib.PurePath.name` on POSIX paths. -/
def basename (p : FPath) : String :=
  match (splitOnChar '/' p.data).reverse with
  | [] => ""
  | x :: _ => String.mk x

/-- Model of `str.lower()` restricted to what the comparison with `.wav` needs:
lowercase each character. -/
def lowerStr (s : String) : String :=
  String.mk (s.data.map Char.toLower)

/-- Index of the last occurrence of a dot in a character list
(`str.rfind` restricted to the dot character). -/
def rfindDot (cs : List Char) : Option Nat :=
  ((List.range cs.length).reverse).find? (fun i => cs.get? i == some '.')

/-- Model of `pathlib.PurePath.suffix`: the extension of the final component,
including the dot; empty when the last dot is at position 0 (hidden files)
or at the very end of the name. -/
def pathSuffix (p : FPath) : String :=
  let name := basename p
  let cs := name.data
  match rfindDot cs with
  | none => ""
  | some i => if 0 < i && i + 1 < cs.length then String.mk (cs.drop i) else ""

/-- Outcome of running `subprocess.run` on the FFmpeg version command with check enabled:
it either returns normally, raises `subprocess.SubprocessError` (the tool ran
but exited non-zero), or raises `FileNotFoundError` (no such executable). -/
inductive ProbeOutcome
  | ok
  | toolError
  | notFound
deriving DecidableEq, Repr

/-- The exceptions the version probe can raise; both are caught by the
`except (subprocess.SubprocessError, FileNotFoundError)` clause. -/
inductive ProbeErr
  | subprocessError
  | fileNotFound
deriving DecidableEq, Repr

/-- Outcome of one pydub conversion attempt
(`AudioSegment.from_file(...)` / `set_...` / `export(output_file, ...)`):
either it succeeds, having written `content` to the output path, or some
step raises, possibly after a partial write to the output path. -/
inductive PydubRun
  | succeeded (content : String)
  | raised (wrote : Option String)
deriving DecidableEq, Repr

/-- Outcome of the FFmpeg conversion subprocess: exit status zero having
written `content` to the output path, or non-zero exit
(`subprocess.CalledProcessError`), possibly after a partial write. -/
inductive FfmpegRun
  | succeeded (content : String)
  | failed (wrote : Option String)
deriving DecidableEq, Repr

/-- The ambient behaviour of the two backends and of the probes, fixed for
the duration of one call (the Python module resolves `PYDUB_AVAILABLE` once
at import time; the subprocess outcomes are determined by the installed
tools and the input bytes, modelled as functions of the input path). -/
structure Env where
  /-- Flag `PYDUB_AVAILABLE`: whether `from pydub import AudioSegment` succeeded. -/
  pydubAvailable : Bool
  /-- Result of the pydub decode/resample/export pipeline on a given input. -/
  pydub : FPath → PydubRun
  /-- Outcome of the `ffmpeg -version` capability probe. -/
  ffmpegProbe : ProbeOutcome
  /-- Outcome of the FFmpeg conversion subprocess on a given input. -/
  ffmpegRun : FPath → FfmpegRun
  /-- Outcome of the post-conversion `ffprobe` metadata query:
  `some meta` when it succeeds, `none` when it raises. -/
  ffprobe : FPath → Option String
  /-- Allocator of `tempfile.mkstemp` paths with a `.wav` suffix, indexed by how many
  temporary files have been allocated so far. -/
  temps : Nat → FPath

/-- The version probe, a `subprocess.run` of the FFmpeg version command with
check enabled, as a fallible call. -/
def runFfmpegVersion (env : Env) : Except ProbeErr Unit :=
  match env.ffmpegProbe with
  | .ok => .ok ()
  | .toolError => .error .subprocessError
  | .notFound => .error .fileNotFound

/-- Model of `check_ffmpeg(quiet=False)`: wraps the version probe in
`try/except (subprocess.SubprocessError, FileNotFoundError)`; returns the
printed lines and the boolean result. Total: every exception the probe can
raise is caught, so the function never propagates one. -/
def check_ffmpeg (env : Env) (quiet : Bool) : List String × Bool :=
  match runFfmpegVersion env with
  | .ok _ => ((if quiet then [] else ["✓ FFmpeg is installed"]), true)
  | .error _ => ((if quiet then [] else ["✗ FFmpeg is not installed"]), false)

/-- Result of one conversion call: the filesystem afterwards, the number of
temporary files allocated so far, the console output, and the returned pair
`(success, output_file_path)`. -/
structure CvtRes where
  fs : FS
  ctr : Nat
  out : List String
  success : Bool
  path : Option FPath
deriving DecidableEq, Repr

/-- Model of `convert_to_wav_with_ffmpeg(input_file, output_file, quiet=False)`. -/
def convert_to_wav_with_ffmpeg (env : Env) (fs : FS) (ctr : Nat)
    (input_file output_file : FPath) (quiet : Bool) : CvtRes :=
  let chk := check_ffmpeg env quiet
  if !chk.2 then
    { fs := fs, ctr := ctr,
      out := chk.1 ++
        (if quiet then [] else
          ["⚠️ FFmpeg is not installed. Please install FFmpeg to enable audio conversion."]),
      success := false, path := none }
  else
    let out1 := chk.1 ++ (if quiet then [] else ["Using FFmpeg for conversion..."])
    match env.ffmpegRun input_file with
    | .succeeded c =>
        let fs1 := fsWrite fs output_file c
        let out2 :=
          if quiet then [] else
            ["✓ Conversion successful: " ++ basename output_file] ++
            (match env.ffprobe output_file with
             | some meta => [meta]
             | none => [])
        { fs := fs1, ctr := ctr, out := out1 ++ out2,
          success := true, path := some output_file }
    | .failed wrote =>
        let fs1 := match wrote with
          | some c => fsWrite fs output_file c
          | none => fs
        let out2 := if quiet then [] else ["✗ FFmpeg conversion failed"]
        let fs2 := if fsExists fs1 output_file then fsRemove fs1 output_file else fs1
        { fs := fs2, ctr := ctr, out := out1 ++ out2,
          success := false, path := none }

/-- Python truthiness of the `output_file` argument: `None` and the empty
string are both falsy, so both trigger temp-file allocation. -/
def useTemp (output_file : Option FPath) : Bool :=
  match output_file with
  | none => true
  | some p => p == ""

/-- The destination the conversion will write to: the provided output path
when truthy, otherwise the next `mkstemp` path. -/
def destPath (env : Env) (ctr : Nat) (output_file : Option FPath) : FPath :=
  if useTemp output_file then env.temps ctr else output_file.getD ""

/-- Model of `convert_to_wav(input_file, output_file=None, quiet=False)`. -/
def convert_to_wav (env : Env) (fs : FS) (ctr : Nat) (input_file : FPath)
    (output_file : Option FPath) (quiet : Bool) : CvtRes :=
  if !fsExists fs input_file then
    { fs := fs, ctr := ctr,
      out := if quiet then [] else ["Input file not found: " ++ input_file],
      success := false, path := none }
  else
    let file_extension := lowerStr (pathSuffix input_file)
    if file_extension == ".wav" then
      { fs := fs, ctr := ctr, out := [], success := true, path := some input_file }
    else
      let outp := destPath env ctr output_file
      let fs1 := if useTemp output_file then fsWrite fs outp "" else fs
      let ctr1 := if useTemp output_file then ctr + 1 else ctr
      let out1 := if quiet then [] else
        ["Converting " ++ basename input_file ++ " to WAV format..."]
      if env.pydubAvailable then
        match env.pydub input_file with
        | .succeeded c =>
            let fs2 := fsWrite fs1 outp c
            let out2 := if quiet then [] else
              ["Using pydub for conversion...",
               "✓ Conversion successful: " ++ basename outp]
            { fs := fs2, ctr := ctr1, out := out1 ++ out2,
              success := true, path := some outp }
        | .raised wrote =>
            let fs2 := match wrote with
              | some c => fsWrite fs1 outp c
              | none => fs1
            let out2 := if quiet then [] else
              ["Using pydub for conversion...",
               "⚠️ Pydub conversion failed", "Falling back to FFmpeg..."]
            let r := convert_to_wav_with_ffmpeg env fs2 ctr1 input_file outp quiet
            { r with out := out1 ++ out2 ++ r.out }
      else
        let r := convert_to_wav_with_ffmpeg env fs1 ctr1 input_file outp quiet
        { r with out := out1 ++ r.out }

/-- Result of a batch conversion: filesystem, temp counter, console output,
and the returned pair `(converted_files, temp_files)`. The lists hold
`Option FPath` because the Python lists hold whatever `convert_to_wav`
returned as its second component. -/
structure BatchRes where
  fs : FS
  ctr : Nat
  out : List String
  converted : List (Option FPath)
  temps : List (Option FPath)
deriving DecidableEq, Repr

/-- Model of `convert_files_to_wav(file_list, quiet=False)`. -/
def convert_files_to_wav (env : Env) (fs : FS) (ctr : Nat)
    (file_list : List FPath) (quiet : Bool) : BatchRes :=
  match file_list with
  | [] => { fs := fs, ctr := ctr, out := [], converted := [], temps := [] }
  | p :: rest =>
      let r := convert_to_wav env fs ctr p none quiet
      let b := convert_files_to_wav env r.fs r.ctr rest quiet
      if r.success then
        { fs := b.fs, ctr := b.ctr, out := r.out ++ b.out,
          converted := r.path :: b.converted,
          temps := if r.path != some p then r.path :: b.temps else b.temps }
      else
        { fs := b.fs, ctr := b.ctr,
          out := r.out ++ (if quiet then [] else ["Error converting " ++ p]) ++ b.out,
          converted := b.converted, temps := b.temps }

/-- The per-input trace of a batch run: each input path paired with the
result of its own `convert_to_wav` call, filesystem and counter threaded
through in input order. Used to state what `convert_files_to_wav` returns. -/
def batchTrace (env : Env) (fs : FS) (ctr : Nat) (quiet : Bool) :
    List FPath → List (FPath × CvtRes)
  | [] => []
  | p :: rest =>
      let r := convert_to_wav env fs ctr p none quiet
      (p, r) :: batchTrace env r.fs r.ctr quiet rest

/-- The caller-visible effect of one conversion call: the filesystem, the
temp-allocation counter, and the returned pair `(success, path)` —
everything except the console output. -/
def CvtRes.visible (r : CvtRes) : FS × Nat × Bool × Option FPath :=
  (r.fs, r.ctr, r.success, r.path)

/-- A fully working environment: pydub importable and succeeding, FFmpeg
installed and succeeding, ffprobe succeeding. -/
def envAll : Env where
  pydubAvailable := true
  pydub := fun _ => .succeeded "PYDUB-PCM"
  ffmpegProbe := .ok
  ffmpegRun := fun _ => .succeeded "FFMPEG-PCM"
  ffprobe := fun _ => some "duration=1 channels=1 sample_rate=16000"
  temps := fun n => "/tmp/tmp" ++ toString n ++ ".wav"

/-- A filesystem holding one MP3 file and one WAV file. -/
def fsDemo : FS := [("song.mp3", "MP3DATA"), ("take.WAV", "WAVDATA")]

/-- Environment with pydub absent and FFmpeg not installed. -/
def envNone : Env :=
  { envAll with pydubAvailable := false, ffmpegProbe := ProbeOutcome.notFound }

/-- Environment with pydub absent and the FFmpeg conversion subprocess
exiting non-zero without writing anything. -/
def envFfFail : Env :=
  { envAll with pydubAvailable := false, ffmpegRun := fun _ => FfmpegRun.failed none }

/-- Environment where pydub raises mid-conversion and FFmpeg works. -/
def envPyRaise : Env :=
  { envAll with pydub := fun _ => PydubRun.raised none }

/-! ### Filesystem lemmas -/

theorem fsRead_fsWrite_self (fs : FS) (p : FPath) (c : String) :
    fsRead (fsWrite fs p c) p = some c := by
  simp [fsRead, fsWrite, List.find?_cons]

theorem fsExists_fsWrite_self (fs : FS) (p : FPath) (c : String) :
    fsExists (fsWrite fs p c) p = true := by
  simp [fsExists, fsWrite]

theorem fsExists_fsRemove_self (fs : FS) (p : FPath) :
    fsExists (fsRemove fs p) p = false := by
  simp only [fsExists, fsRemove]
  rw [List.any_eq_false]
  intro e he
  have h1 := List.of_mem_filter he
  simp only [bne_iff_ne, ne_eq] at h1
  simp [h1]

theorem find?_fsRemove_ne (fs : FS) (p q : FPath) (h : p ≠ q) :
    (fsRemove fs p).find? (fun e => e.1 == q) = fs.find? (fun e => e.1 == q) := by
  induction fs with
  | nil => rfl
  | cons e t ih =>
      by_cases he : e.1 = p
      · have h1 : (e.1 != p) = false := by simp [he]
        have h2 : (e.1 == q) = false := by
          simp only [beq_eq_false_iff_ne, ne_eq, he]
          exact h
        simp only [fsRemove, List.filter_cons, h1, Bool.false_eq_true, if_false,
          List.find?_cons, h2]
        exact ih
      · have h1 : (e.1 != p) = true := by simp [he]
        simp only [fsRemove, List.filter_cons, h1, if_true, List.find?_cons]
        cases hq : (e.1 == q) with
        | true => rfl
        | false => exact ih

theorem fsRead_fsRemove_ne (fs : FS) (p q : FPath) (h : p ≠ q) :
    fsRead (fsRemove fs p) q = fsRead fs q := by
  simp only [fsRead, find?_fsRemove_ne fs p q h]

theorem fsRead_fsWrite_ne (fs : FS) (p q : FPath) (c : String) (h : p ≠ q) :
    fsRead (fsWrite fs p c) q = fsRead fs q := by
  have h1 : (p == q) = false := by
    simp only [beq_eq_false_iff_ne, ne_eq]
    exact h
  simp only [fsRead, fsWrite, List.find?_cons, h1, find?_fsRemove_ne fs p q h]

theorem fsExists_eq_isSome_fsRead (fs : FS) (p : FPath) :
    fsExists fs p = (fsRead fs p).isSome := by
  induction fs with
  | nil => rfl
  | cons e t ih =>
      simp only [fsExists, fsRead, List.any_cons, List.find?_cons] at *
      cases he : (e.1 == p) with
      | true => simp
      | false => simpa using ih

theorem fsExists_fsRemove_ne (fs : FS) (p q : FPath) (h : p ≠ q) :
    fsExists (fsRemove fs p) q = fsExists fs q := by
  rw [fsExists_eq_isSome_fsRead, fsExists_eq_isSome_fsRead, fsRead_fsRemove_ne fs p q h]

theorem fsExists_fsWrite_ne (fs : FS) (p q : FPath) (c : String) (h : p ≠ q) :
    fsExists (fsWrite fs p c) q = fsExists fs q := by
  rw [fsExists_eq_isSome_fsRead, fsExists_eq_isSome_fsRead, fsRead_fsWrite_ne fs p q c h]

/-! ### Helper lemmas about the two strategies -/

theorem check_ffmpeg_snd_ok (env : Env) (quiet : Bool)
    (h : env.ffmpegProbe = ProbeOutcome.ok) :
    (check_ffmpeg env quiet).2 = true := by
  simp [check_ffmpeg, runFfmpegVersion, h]

theorem check_ffmpeg_snd_not_ok (env : Env) (quiet : Bool)
    (h : env.ffmpegProbe ≠ ProbeOutcome.ok) :
    (check_ffmpeg env quiet).2 = false := by
  cases hp : env.ffmpegProbe with
  | ok => exact absurd hp h
  | toolError => simp [check_ffmpeg, runFfmpegVersion, hp]
  | notFound => simp [check_ffmpeg, runFfmpegVersion, hp]

/-- When FFmpeg is unavailable, `convert_to_wav_with_ffmpeg` changes nothing
on disk and returns `(False, None)`. -/
theorem with_ffmpeg_unavailable (env : Env) (fs : FS) (ctr : Nat)
    (input_file output_file : FPath) (quiet : Bool)
    (h : env.ffmpegProbe ≠ ProbeOutcome.ok) :
    (convert_to_wav_with_ffmpeg env fs ctr input_file output_file quiet).fs = fs ∧
    (convert_to_wav_with_ffmpeg env fs ctr input_file output_file quiet).success = false ∧
    (convert_to_wav_with_ffmpeg env fs ctr input_file output_file quiet).path = none := by
  simp [convert_to_wav_with_ffmpeg, check_ffmpeg_snd_not_ok env quiet h]

/-- When the FFmpeg subprocess succeeds, `convert_to_wav_with_ffmpeg` writes
the converted content to the destination and returns `(True, output_file)`. -/
theorem with_ffmpeg_succeeded (env : Env) (fs : FS) (ctr : Nat)
    (input_file output_file : FPath) (quiet : Bool) (c : String)
    (hprobe : env.ffmpegProbe = ProbeOutcome.ok)
    (hrun : env.ffmpegRun input_file = FfmpegRun.succeeded c) :
    (convert_to_wav_with_ffmpeg env fs ctr input_file output_file quiet).fs =
      fsWrite fs output_file c ∧
    (convert_to_wav_with_ffmpeg env fs ctr input_file output_file quiet).success = true ∧
    (convert_to_wav_with_ffmpeg env fs ctr input_file output_file quiet).path =
      some output_file := by
  simp [convert_to_wav_with_ffmpeg, check_ffmpeg_snd_ok env quiet hprobe, hrun]

/-- When the FFmpeg subprocess exits non-zero, `convert_to_wav_with_ffmpeg`
returns `(False, None)` and the destination does not exist afterwards. -/
theorem with_ffmpeg_failed (env : Env) (fs : FS) (ctr : Nat)
    (input_file output_file : FPath) (quiet : Bool) (wrote : Option String)
    (hprobe : env.ffmpegProbe = ProbeOutcome.ok)
    (hrun : env.ffmpegRun input_file = FfmpegRun.failed wrote) :
    (convert_to_wav_with_ffmpeg env fs ctr input_file output_file quiet).success = false ∧
    (convert_to_wav_with_ffmpeg env fs ctr input_file output_file quiet).path = none ∧
    fsExists (convert_to_wav_with_ffmpeg env fs ctr input_file output_file quiet).fs
      output_file = false := by
  simp only [convert_to_wav_with_ffmpeg, check_ffmpeg_snd_ok env quiet hprobe, hrun,
    Bool.not_true, Bool.false_eq_true, if_false]
  refine ⟨trivial, trivial, ?_⟩
  split
  · exact fsExists_fsRemove_self _ _
  · next h => simpa using h

/-- Altering the `out` field of a result does not change its visible part. -/
theorem visible_out_update (r : CvtRes) (o : List String) :
    ({ r with out := o } : CvtRes).visible = r.visible := rfl

theorem with_ffmpeg_unavailable_fs (env : Env) (input_file output_file : FPath)
    (quiet : Bool) (h : env.ffmpegProbe ≠ ProbeOutcome.ok) (fs : FS) (ctr : Nat) :
    (convert_to_wav_with_ffmpeg env fs ctr input_file output_file quiet).fs = fs :=
  (with_ffmpeg_unavailable env fs ctr input_file output_file quiet h).1

theorem with_ffmpeg_unavailable_success (env : Env) (input_file output_file : FPath)
    (quiet : Bool) (h : env.ffmpegProbe ≠ ProbeOutcome.ok) (fs : FS) (ctr : Nat) :
    (convert_to_wav_with_ffmpeg env fs ctr input_file output_file quiet).success = false :=
  (with_ffmpeg_unavailable env fs ctr input_file output_file quiet h).2.1

theorem with_ffmpeg_unavailable_path (env : Env) (input_file output_file : FPath)
    (quiet : Bool) (h : env.ffmpegProbe ≠ ProbeOutcome.ok) (fs : FS) (ctr : Nat) :
    (convert_to_wav_with_ffmpeg env fs ctr input_file output_file quiet).path = none :=
  (with_ffmpeg_unavailable env fs ctr input_file output_file quiet h).2.2

theorem with_ffmpeg_failed_success (env : Env) (input_file output_file : FPath)
    (quiet : Bool) (wrote : Option String) (hprobe : env.ffmpegProbe = ProbeOutcome.ok)
    (hrun : env.ffmpegRun input_file = FfmpegRun.failed wrote) (fs : FS) (ctr : Nat) :
    (convert_to_wav_with_ffmpeg env fs ctr input_file output_file quiet).success = false :=
  (with_ffmpeg_failed env fs ctr input_file output_file quiet wrote hprobe hrun).1

theorem with_ffmpeg_failed_path (env : Env) (input_file output_file : FPath)
    (quiet : Bool) (wrote : Option String) (hprobe : env.ffmpegProbe = ProbeOutcome.ok)
    (hrun : env.ffmpegRun input_file = FfmpegRun.failed wrote) (fs : FS) (ctr : Nat) :
    (convert_to_wav_with_ffmpeg env fs ctr input_file output_file quiet).path = none :=
  (with_ffmpeg_failed env fs ctr input_file output_file quiet wrote hprobe hrun).2.1

theorem with_ffmpeg_failed_gone (env : Env) (input_file output_file : FPath)
    (quiet : Bool) (wrote : Option String) (hprobe : env.ffmpegProbe = ProbeOutcome.ok)
    (hrun : env.ffmpegRun input_file = FfmpegRun.failed wrote) (fs : FS) (ctr : Nat) :
    fsExists (convert_to_wav_with_ffmpeg env fs ctr input_file output_file quiet).fs
      output_file = false :=
  (with_ffmpeg_failed env fs ctr input_file output_file quiet wrote hprobe hrun).2.2

/-- The filesystem after the `mkstemp` allocation step contains the temp
file when one was allocated. -/
theorem alloc_exists_temp (env : Env) (fs : FS) (ctr : Nat) (output_file : Option FPath)
    (hut : useTemp output_file = true) :
    fsExists (if useTemp output_file = true then
      fsWrite fs (destPath env ctr output_file) "" else fs) (env.temps ctr) = true := by
  simp [hut, destPath, fsExists_fsWrite_self]

/-- Reading a path other than the destination is unaffected by the
`mkstemp` allocation step. -/
theorem fsRead_alloc_ne (env : Env) (fs : FS) (ctr : Nat) (output_file : Option FPath)
    (q : FPath) (h : destPath env ctr output_file ≠ q) :
    fsRead (if useTemp output_file = true then
      fsWrite fs (destPath env ctr output_file) "" else fs) q = fsRead fs q := by
  cases hut : useTemp output_file with
  | true =>
      simp only [hut, if_true]
      exact fsRead_fsWrite_ne fs (destPath env ctr output_file) q "" h
  | false => simp [hut]

/-- The visible part of `convert_to_wav_with_ffmpeg` does not depend on the
`quiet` argument. -/
theorem with_ffmpeg_visible_quiet (env : Env) (fs : FS) (ctr : Nat)
    (input_file output_file : FPath) (q1 q2 : Bool) :
    (convert_to_wav_with_ffmpeg env fs ctr input_file output_file q1).visible =
    (convert_to_wav_with_ffmpeg env fs ctr input_file output_file q2).visible := by
  by_cases hp : env.ffmpegProbe = ProbeOutcome.ok
  · cases hr : env.ffmpegRun input_file <;>
      simp [convert_to_wav_with_ffmpeg, check_ffmpeg_snd_ok env _ hp, hr, CvtRes.visible]
  · simp [convert_to_wav_with_ffmpeg, check_ffmpeg_snd_not_ok env _ hp, CvtRes.visible]

/-- Reading any path other than the destination is unchanged by
`convert_to_wav_with_ffmpeg`. -/
theorem with_ffmpeg_fsRead_ne (env : Env) (fs : FS) (ctr : Nat)
    (input_file output_file q : FPath) (quiet : Bool) (h : output_file ≠ q) :
    fsRead (convert_to_wav_with_ffmpeg env fs ctr input_file output_file quiet).fs q =
      fsRead fs q := by
  by_cases hp : env.ffmpegProbe = ProbeOutcome.ok
  · cases hr : env.ffmpegRun input_file with
    | succeeded c =>
        rw [(with_ffmpeg_succeeded env fs ctr input_file output_file quiet c hp hr).1]
        exact fsRead_fsWrite_ne fs output_file q c h
    | failed w =>
        simp only [convert_to_wav_with_ffmpeg, check_ffmpeg_snd_ok env quiet hp, hr,
          Bool.not_true, Bool.false_eq_true, if_false]
        cases w with
        | some cw =>
            split
            · rw [fsRead_fsRemove_ne _ _ _ h, fsRead_fsWrite_ne _ _ _ _ h]
            · rw [fsRead_fsWrite_ne _ _ _ _ h]
        | none =>
            split
            · rw [fsRead_fsRemove_ne _ _ _ h]
            · rfl
  · rw [(with_ffmpeg_unavailable env fs ctr input_file output_file quiet hp).1]

/-! ### Claim theorems -/

/-- C2: for every existing input whose extension lowercases to `.wav`,
`convert_to_wav` returns success with exactly the original input path,
leaves the filesystem unchanged (creates no file) and allocates no
temporary destination (the `mkstemp` counter is unchanged), whatever the
environment, `output_file` and `quiet` arguments. -/
theorem C2_wav_passthrough (env : Env) (fs : FS) (ctr : Nat) (input_file : FPath)
    (output_file : Option FPath) (quiet : Bool)
    (hex : fsExists fs input_file = true)
    (hwav : lowerStr (pathSuffix input_file) = ".wav") :
    convert_to_wav env fs ctr input_file output_file quiet =
      { fs := fs, ctr := ctr, out := [], success := true, path := some input_file } := by
  simp [convert_to_wav, hex, hwav]

/-- C2 witness: the existing file `take.WAV` is passed through unchanged. -/
theorem C2_wav_passthrough_witness :
    fsExists fsDemo "take.WAV" = true ∧
    lowerStr (pathSuffix "take.WAV") = ".wav" ∧
    convert_to_wav envAll fsDemo 0 "take.WAV" none false =
      { fs := fsDemo, ctr := 0, out := [], success := true, path := some "take.WAV" } :=
  ⟨by decide, by decide,
    C2_wav_passthrough envAll fsDemo 0 "take.WAV" none false (by decide) (by decide)⟩

/-- C5: for every input path that does not exist on disk, `convert_to_wav`
returns `(False, None)`, for every environment (backend availability), every
`output_file` and every `quiet` argument. -/
theorem C5_missing_input (env : Env) (fs : FS) (ctr : Nat) (input_file : FPath)
    (output_file : Option FPath) (quiet : Bool)
    (hex : fsExists fs input_file = false) :
    (convert_to_wav env fs ctr input_file output_file quiet).success = false ∧
    (convert_to_wav env fs ctr input_file output_file quiet).path = none := by
  simp [convert_to_wav, hex]

/-- C5 witness: converting the non-existent `missing.flac` fails with no
path. -/
theorem C5_missing_input_witness :
    fsExists fsDemo "missing.flac" = false ∧
    (convert_to_wav envAll fsDemo 0 "missing.flac" (some "out.wav") true).success = false ∧
    (convert_to_wav envAll fsDemo 0 "missing.flac" (some "out.wav") true).path = none :=
  ⟨by decide, C5_missing_input envAll fsDemo 0 "missing.flac" (some "out.wav") true (by decide)⟩

/-- C8: `check_ffmpeg` returns `True` exactly when the probe subprocess
executes and exits successfully; the tool-errored and tool-not-found
outcomes both yield `False` and are indistinguishable in the result. The
function is total over every probe outcome (both exceptions the probe can
raise are caught), so it never propagates an exception. -/
theorem C8_check_ffmpeg (env : Env) (quiet : Bool) :
    ((check_ffmpeg env quiet).2 = true ↔ env.ffmpegProbe = ProbeOutcome.ok) ∧
    (check_ffmpeg { env with ffmpegProbe := ProbeOutcome.toolError } quiet).2 =
      (check_ffmpeg { env with ffmpegProbe := ProbeOutcome.notFound } quiet).2 := by
  refine ⟨⟨fun h => ?_, fun h => check_ffmpeg_snd_ok env quiet h⟩, rfl⟩
  by_contra hne
  rw [check_ffmpeg_snd_not_ok env quiet hne] at h
  exact Bool.false_ne_true h

/-- C8 witness: instantiation at a concrete environment. -/
theorem C8_check_ffmpeg_witness :
    ((check_ffmpeg envAll true).2 = true ↔ envAll.ffmpegProbe = ProbeOutcome.ok) ∧
    (check_ffmpeg { envAll with ffmpegProbe := ProbeOutcome.toolError } true).2 =
      (check_ffmpeg { envAll with ffmpegProbe := ProbeOutcome.notFound } true).2 :=
  C8_check_ffmpeg envAll true

/-- C4: whenever the FFmpeg conversion subprocess exits non-zero,
`convert_to_wav_with_ffmpeg` returns failure with no path and the
destination file does not exist on disk afterwards (a partial write, or a
pre-existing destination, is removed). -/
theorem C4_ffmpeg_failure_cleanup (env : Env) (fs : FS) (ctr : Nat)
    (input_file output_file : FPath) (quiet : Bool) (wrote : Option String)
    (hprobe : env.ffmpegProbe = ProbeOutcome.ok)
    (hrun : env.ffmpegRun input_file = FfmpegRun.failed wrote) :
    (convert_to_wav_with_ffmpeg env fs ctr input_file output_file quiet).success = false ∧
    (convert_to_wav_with_ffmpeg env fs ctr input_file output_file quiet).path = none ∧
    fsExists (convert_to_wav_with_ffmpeg env fs ctr input_file output_file quiet).fs
      output_file = false :=
  with_ffmpeg_failed env fs ctr input_file output_file quiet wrote hprobe hrun

/-- C4 witness: a subprocess failure after a partial write to `out.wav`
leaves no `out.wav` behind and returns `(False, None)`. -/
theorem C4_ffmpeg_failure_cleanup_witness :
    ({ envAll with ffmpegRun := fun _ => FfmpegRun.failed (some "PART") } : Env).ffmpegProbe
        = ProbeOutcome.ok ∧
    ({ envAll with ffmpegRun := fun _ => FfmpegRun.failed (some "PART") } : Env).ffmpegRun
        "song.mp3" = FfmpegRun.failed (some "PART") ∧
    ((convert_to_wav_with_ffmpeg
        { envAll with ffmpegRun := fun _ => FfmpegRun.failed (some "PART") }
        fsDemo 0 "song.mp3" "out.wav" true).success = false ∧
      (convert_to_wav_with_ffmpeg
        { envAll with ffmpegRun := fun _ => FfmpegRun.failed (some "PART") }
        fsDemo 0 "song.mp3" "out.wav" true).path = none ∧
      fsExists (convert_to_wav_with_ffmpeg
        { envAll with ffmpegRun := fun _ => FfmpegRun.failed (some "PART") }
        fsDemo 0 "song.mp3" "out.wav" true).fs "out.wav" = false) :=
  ⟨by decide, by decide,
    C4_ffmpeg_failure_cleanup _ fsDemo 0 "song.mp3" "out.wav" true (some "PART")
      (by decide) (by decide)⟩

/-- C3: for an existing non-WAV input, when pydub is available but raises
mid-conversion (possibly after a partial write) and FFmpeg is available and
its subprocess succeeds, `convert_to_wav` returns success with the
destination path — the embedded failure is absorbed by the fallback and the
result is a success, not an exception or failure. -/
theorem C3_pydub_fallback (env : Env) (fs : FS) (ctr : Nat) (input_file : FPath)
    (output_file : Option FPath) (quiet : Bool) (wrote : Option String) (c : String)
    (hex : fsExists fs input_file = true)
    (hwav : (lowerStr (pathSuffix input_file) == ".wav") = false)
    (hpyav : env.pydubAvailable = true)
    (hpy : env.pydub input_file = PydubRun.raised wrote)
    (hprobe : env.ffmpegProbe = ProbeOutcome.ok)
    (hrun : env.ffmpegRun input_file = FfmpegRun.succeeded c) :
    (convert_to_wav env fs ctr input_file output_file quiet).success = true ∧
    (convert_to_wav env fs ctr input_file output_file quiet).path =
      some (destPath env ctr output_file) := by
  simp only [convert_to_wav, hex, hwav, hpyav, hpy, Bool.not_true, Bool.false_eq_true,
    if_false, if_true]
  exact ⟨(with_ffmpeg_succeeded env _ _ input_file _ quiet c hprobe hrun).2.1,
         (with_ffmpeg_succeeded env _ _ input_file _ quiet c hprobe hrun).2.2⟩

/-- C3 witness: pydub raises on `song.mp3`, FFmpeg succeeds, and the call
returns success with the provided destination `out.wav`. -/
theorem C3_pydub_fallback_witness :
    fsExists fsDemo "song.mp3" = true ∧
    (lowerStr (pathSuffix "song.mp3") == ".wav") = false ∧
    envPyRaise.pydubAvailable = true ∧
    envPyRaise.pydub "song.mp3" = PydubRun.raised none ∧
    envPyRaise.ffmpegProbe = ProbeOutcome.ok ∧
    envPyRaise.ffmpegRun "song.mp3" = FfmpegRun.succeeded "FFMPEG-PCM" ∧
    ((convert_to_wav envPyRaise fsDemo 0 "song.mp3" (some "out.wav") true).success = true ∧
      (convert_to_wav envPyRaise fsDemo 0 "song.mp3" (some "out.wav") true).path =
        some (destPath envPyRaise 0 (some "out.wav"))) :=
  ⟨by decide, by decide, by decide, by decide, by decide, by decide,
    C3_pydub_fallback envPyRaise fsDemo 0 "song.mp3" (some "out.wav") true none "FFMPEG-PCM"
      (by decide) (by decide) (by decide) (by decide) (by decide) (by decide)⟩

/-- C9: after a successful FFmpeg conversion, the result of the ffprobe
metadata query never changes the returned result — for every choice of
ffprobe behaviour (succeeding, failing, or skipped because of `quiet`),
`convert_to_wav_with_ffmpeg` returns success with the destination path and
the same filesystem. -/
theorem C9_ffprobe_never_affects_result (env : Env) (fs : FS) (ctr : Nat)
    (input_file output_file : FPath) (quiet : Bool) (c : String)
    (hprobe : env.ffmpegProbe = ProbeOutcome.ok)
    (hrun : env.ffmpegRun input_file = FfmpegRun.succeeded c) :
    ∀ fp : FPath → Option String,
      (convert_to_wav_with_ffmpeg { env with ffprobe := fp } fs ctr input_file
        output_file quiet).success = true ∧
      (convert_to_wav_with_ffmpeg { env with ffprobe := fp } fs ctr input_file
        output_file quiet).path = some output_file ∧
      (convert_to_wav_with_ffmpeg { env with ffprobe := fp } fs ctr input_file
        output_file quiet).fs = fsWrite fs output_file c := by
  intro fp
  have h := with_ffmpeg_succeeded { env with ffprobe := fp } fs ctr input_file output_file
    quiet c hprobe hrun
  exact ⟨h.2.1, h.2.2, h.1⟩

/-- C9 witness: with ffprobe always failing (and not `quiet`, so the query
is attempted), the conversion still returns success with `out.wav`. -/
theorem C9_ffprobe_never_affects_result_witness :
    envAll.ffmpegProbe = ProbeOutcome.ok ∧
    envAll.ffmpegRun "song.mp3" = FfmpegRun.succeeded "FFMPEG-PCM" ∧
    ((convert_to_wav_with_ffmpeg { envAll with ffprobe := fun _ => none } fsDemo 0
        "song.mp3" "out.wav" false).success = true ∧
      (convert_to_wav_with_ffmpeg { envAll with ffprobe := fun _ => none } fsDemo 0
        "song.mp3" "out.wav" false).path = some "out.wav" ∧
      (convert_to_wav_with_ffmpeg { envAll with ffprobe := fun _ => none } fsDemo 0
        "song.mp3" "out.wav" false).fs = fsWrite fsDemo "out.wav" "FFMPEG-PCM") :=
  ⟨by decide, by decide,
    C9_ffprobe_never_affects_result envAll fsDemo 0 "song.mp3" "out.wav" false "FFMPEG-PCM"
      (by decide) (by decide) (fun _ => none)⟩

/-- C10: the `quiet` flag never influences the visible effect of
`convert_to_wav` — for every environment (backend behaviour), filesystem
and arguments, any two values of `quiet` produce the same filesystem, temp
counter and returned `(success, path)` pair; only the console output may
differ. -/
theorem C10_quiet_independent (env : Env) (fs : FS) (ctr : Nat) (input_file : FPath)
    (output_file : Option FPath) (q1 q2 : Bool) :
    (convert_to_wav env fs ctr input_file output_file q1).visible =
    (convert_to_wav env fs ctr input_file output_file q2).visible := by
  cases hex : fsExists fs input_file with
  | false => simp [convert_to_wav, hex, CvtRes.visible]
  | true =>
      cases hwav : (lowerStr (pathSuffix input_file) == ".wav") with
      | true => simp [convert_to_wav, hex, hwav, CvtRes.visible]
      | false =>
          cases hpav : env.pydubAvailable with
          | false =>
              simp only [convert_to_wav, hex, hwav, hpav, Bool.not_true, Bool.not_false,
                Bool.false_eq_true, if_false, if_true]
              rw [visible_out_update, visible_out_update]
              exact with_ffmpeg_visible_quiet env _ _ input_file _ q1 q2
          | true =>
              cases hpy : env.pydub input_file with
              | succeeded c =>
                  simp [convert_to_wav, hex, hwav, hpav, hpy, CvtRes.visible]
              | raised w =>
                  simp only [convert_to_wav, hex, hwav, hpav, hpy, Bool.not_true,
                    Bool.not_false, Bool.false_eq_true, if_false, if_true]
                  rw [visible_out_update, visible_out_update]
                  exact with_ffmpeg_visible_quiet env _ _ input_file _ q1 q2

/-- C10 witness: a concrete non-WAV conversion, quiet versus not quiet. -/
theorem C10_quiet_independent_witness :
    (convert_to_wav envAll fsDemo 0 "song.mp3" none true).visible =
    (convert_to_wav envAll fsDemo 0 "song.mp3" none false).visible :=
  C10_quiet_independent envAll fsDemo 0 "song.mp3" none true false

/-- C6: `convert_files_to_wav` runs `convert_to_wav` on each path in input
order (threading the filesystem and temp counter), its first list is
exactly the result paths of the successful conversions in input order
(failures are skipped, later paths still processed), and its second list is
exactly those successful result paths that differ from their corresponding
input path. -/
theorem C6_batch_convert (env : Env) (quiet : Bool) (file_list : List FPath) :
    ∀ (fs : FS) (ctr : Nat),
      (convert_files_to_wav env fs ctr file_list quiet).converted =
        ((batchTrace env fs ctr quiet file_list).filter
          (fun pr => pr.2.success)).map (fun pr => pr.2.path) ∧
      (convert_files_to_wav env fs ctr file_list quiet).temps =
        ((batchTrace env fs ctr quiet file_list).filter
          (fun pr => pr.2.success && pr.2.path != some pr.1)).map (fun pr => pr.2.path) := by
  induction file_list with
  | nil => exact fun fs ctr => ⟨rfl, rfl⟩
  | cons p rest ih =>
      intro fs ctr
      have h1 := (ih (convert_to_wav env fs ctr p none quiet).fs
        (convert_to_wav env fs ctr p none quiet).ctr).1
      have h2 := (ih (convert_to_wav env fs ctr p none quiet).fs
        (convert_to_wav env fs ctr p none quiet).ctr).2
      simp only [convert_files_to_wav, batchTrace, List.filter_cons]
      cases hs : (convert_to_wav env fs ctr p none quiet).success with
      | false => simp only [hs, Bool.false_eq_true, if_false, Bool.false_and]
                 exact ⟨h1, h2⟩
      | true =>
          cases hne : ((convert_to_wav env fs ctr p none quiet).path != some p) with
          | true =>
              simp only [hs, hne, Bool.true_and, if_true, List.map_cons]
              exact ⟨by rw [h1], by rw [h2]⟩
          | false =>
              simp only [hs, hne, Bool.true_and, Bool.false_eq_true, if_true, if_false,
                List.map_cons]
              exact ⟨by rw [h1], h2⟩

/-- C6 witness: a batch where the first input converts to a fresh temp
file, the second does not exist (fails, processing continues), and the
third is already WAV (succeeds with its own path, not tracked as temp). -/
theorem C6_batch_convert_witness :
    (convert_files_to_wav envAll fsDemo 0 ["song.mp3", "missing.flac", "take.WAV"]
        true).converted =
      ((batchTrace envAll fsDemo 0 true ["song.mp3", "missing.flac", "take.WAV"]).filter
        (fun pr => pr.2.success)).map (fun pr => pr.2.path) ∧
    (convert_files_to_wav envAll fsDemo 0 ["song.mp3", "missing.flac", "take.WAV"]
        true).temps =
      ((batchTrace envAll fsDemo 0 true ["song.mp3", "missing.flac", "take.WAV"]).filter
        (fun pr => pr.2.success && pr.2.path != some pr.1)).map (fun pr => pr.2.path) :=
  C6_batch_convert envAll true ["song.mp3", "missing.flac", "take.WAV"] fsDemo 0

/-- C1 counterexample: with pydub absent and FFmpeg not installed (both
strategies unavailable), converting the existing `song.mp3` with no output
path does return failure with no path, but the temporary destination
`/tmp/tmp0.wav` allocated via `mkstemp` — absent beforehand — IS left on
disk afterwards, because the FFmpeg-unavailable branch returns without
deleting it. This refutes the cleanup part of the claim. -/
theorem C1_counterexample :
    envNone.pydubAvailable = false ∧
    (check_ffmpeg envNone true).2 = false ∧
    fsExists fsDemo "/tmp/tmp0.wav" = false ∧
    (convert_to_wav envNone fsDemo 0 "song.mp3" none true).success = false ∧
    (convert_to_wav envNone fsDemo 0 "song.mp3" none true).path = none ∧
    fsExists (convert_to_wav envNone fsDemo 0 "song.mp3" none true).fs
      "/tmp/tmp0.wav" = true := by
  decide

/-- C1 amended: if both strategies are unavailable or fail on an existing
non-WAV input, `convert_to_wav` returns failure with no path; when the
FFmpeg subprocess actually ran (tool available) and exited non-zero, the
destination is removed from disk, but when FFmpeg is unavailable and the
destination was allocated via `mkstemp` (no truthy output path given), that
temporary file is left on disk. -/
theorem C1_both_fail_amended (env : Env) (fs : FS) (ctr : Nat) (input_file : FPath)
    (output_file : Option FPath) (quiet : Bool)
    (hex : fsExists fs input_file = true)
    (hwav : (lowerStr (pathSuffix input_file) == ".wav") = false)
    (hpy : env.pydubAvailable = false ∨ ∃ w, env.pydub input_file = PydubRun.raised w)
    (hff : env.ffmpegProbe ≠ ProbeOutcome.ok ∨
      ∃ w, env.ffmpegRun input_file = FfmpegRun.failed w) :
    (convert_to_wav env fs ctr input_file output_file quiet).success = false ∧
    (convert_to_wav env fs ctr input_file output_file quiet).path = none ∧
    (env.ffmpegProbe = ProbeOutcome.ok →
      fsExists (convert_to_wav env fs ctr input_file output_file quiet).fs
        (destPath env ctr output_file) = false) ∧
    (env.ffmpegProbe ≠ ProbeOutcome.ok → useTemp output_file = true →
      fsExists (convert_to_wav env fs ctr input_file output_file quiet).fs
        (env.temps ctr) = true) := by
  cases hpav : env.pydubAvailable with
  | false =>
      simp only [convert_to_wav, hex, hwav, hpav, Bool.not_true, Bool.false_eq_true,
        if_false, if_true]
      by_cases hprobe : env.ffmpegProbe = ProbeOutcome.ok
      · obtain ⟨w, hrun⟩ : ∃ w, env.ffmpegRun input_file = FfmpegRun.failed w := by
          rcases hff with h | h
          · exact absurd hprobe h
          · exact h
        exact ⟨with_ffmpeg_failed_success env input_file _ quiet w hprobe hrun _ _,
          with_ffmpeg_failed_path env input_file _ quiet w hprobe hrun _ _,
          fun _ => with_ffmpeg_failed_gone env input_file _ quiet w hprobe hrun _ _,
          fun hc _ => absurd hprobe hc⟩
      · refine ⟨with_ffmpeg_unavailable_success env input_file _ quiet hprobe _ _,
          with_ffmpeg_unavailable_path env input_file _ quiet hprobe _ _,
          fun hc => absurd hc hprobe, fun _ hut => ?_⟩
        simp only [with_ffmpeg_unavailable_fs env input_file
          (destPath env ctr output_file) quiet hprobe]
        exact alloc_exists_temp env fs ctr output_file hut
  | true =>
      obtain ⟨wp, hpyr⟩ : ∃ w, env.pydub input_file = PydubRun.raised w := by
        rcases hpy with h | h
        · rw [hpav] at h
          exact absurd h (by simp)
        · exact h
      simp only [convert_to_wav, hex, hwav, hpav, hpyr, Bool.not_true, Bool.false_eq_true,
        if_false, if_true]
      by_cases hprobe : env.ffmpegProbe = ProbeOutcome.ok
      · obtain ⟨w, hrun⟩ : ∃ w, env.ffmpegRun input_file = FfmpegRun.failed w := by
          rcases hff with h | h
          · exact absurd hprobe h
          · exact h
        exact ⟨with_ffmpeg_failed_success env input_file _ quiet w hprobe hrun _ _,
          with_ffmpeg_failed_path env input_file _ quiet w hprobe hrun _ _,
          fun _ => with_ffmpeg_failed_gone env input_file _ quiet w hprobe hrun _ _,
          fun hc _ => absurd hprobe hc⟩
      · refine ⟨with_ffmpeg_unavailable_success env input_file _ quiet hprobe _ _,
          with_ffmpeg_unavailable_path env input_file _ quiet hprobe _ _,
          fun hc => absurd hc hprobe, fun _ hut => ?_⟩
        simp only [with_ffmpeg_unavailable_fs env input_file
          (destPath env ctr output_file) quiet hprobe]
        cases wp with
        | some cw =>
            simp only
            rw [show destPath env ctr output_file = env.temps ctr by
              simp [destPath, hut]]
            exact fsExists_fsWrite_self _ _ _
        | none => exact alloc_exists_temp env fs ctr output_file hut

/-- C1 witness for the amended claim: pydub absent, FFmpeg present but its
subprocess fails; the provided destination `out.wav` is cleaned up and the
call fails with no path. -/
theorem C1_both_fail_amended_witness :
    fsExists fsDemo "song.mp3" = true ∧
    ((convert_to_wav envFfFail fsDemo 0 "song.mp3" (some "out.wav") true).success = false ∧
      (convert_to_wav envFfFail fsDemo 0 "song.mp3" (some "out.wav") true).path = none ∧
      (envFfFail.ffmpegProbe = ProbeOutcome.ok →
        fsExists (convert_to_wav envFfFail fsDemo 0 "song.mp3" (some "out.wav") true).fs
          (destPath envFfFail 0 (some "out.wav")) = false) ∧
      (envFfFail.ffmpegProbe ≠ ProbeOutcome.ok → useTemp (some "out.wav") = true →
        fsExists (convert_to_wav envFfFail fsDemo 0 "song.mp3" (some "out.wav") true).fs
          (envFfFail.temps 0) = true)) :=
  ⟨by decide,
    C1_both_fail_amended envFfFail fsDemo 0 "song.mp3" (some "out.wav") true
      (by decide) (by decide) (Or.inl (by decide)) (Or.inr ⟨none, by decide⟩)⟩

/-- C7 counterexample: the claim quantifies over every combination of
`input_file` and `output_file`. Passing `output_file` equal to the input
path, with pydub absent and the FFmpeg subprocess failing, the cleanup
`os.remove(output_file)` deletes the input file itself: `song.mp3` exists
before the call and is gone afterwards. -/
theorem C7_counterexample :
    fsExists fsDemo "song.mp3" = true ∧
    fsRead fsDemo "song.mp3" = some "MP3DATA" ∧
    (convert_to_wav envFfFail fsDemo 0 "song.mp3" (some "song.mp3") true).success = false ∧
    fsExists (convert_to_wav envFfFail fsDemo 0 "song.mp3" (some "song.mp3") true).fs
      "song.mp3" = false := by
  decide

/-- C7 amended: whenever the destination the call resolves to (the truthy
provided output path, else the freshly allocated `mkstemp` temp) differs
from the input path — which `mkstemp` freshness guarantees when no output
path is given — the contents and existence of the input file are unchanged by
`convert_to_wav`, whatever the backend availability and outcomes. -/
theorem C7_input_preserved (env : Env) (fs : FS) (ctr : Nat) (input_file : FPath)
    (output_file : Option FPath) (quiet : Bool)
    (hne : destPath env ctr output_file ≠ input_file) :
    fsRead (convert_to_wav env fs ctr input_file output_file quiet).fs input_file =
      fsRead fs input_file ∧
    fsExists (convert_to_wav env fs ctr input_file output_file quiet).fs input_file =
      fsExists fs input_file := by
  have main : fsRead (convert_to_wav env fs ctr input_file output_file quiet).fs input_file =
      fsRead fs input_file := by
    cases hex : fsExists fs input_file with
    | false => simp [convert_to_wav, hex]
    | true =>
        cases hwav : (lowerStr (pathSuffix input_file) == ".wav") with
        | true => simp [convert_to_wav, hex, hwav]
        | false =>
            cases hpav : env.pydubAvailable with
            | false =>
                simp only [convert_to_wav, hex, hwav, hpav, Bool.not_true, Bool.not_false,
                  Bool.false_eq_true, if_false, if_true]
                rw [with_ffmpeg_fsRead_ne env _ _ input_file _ input_file quiet hne]
                exact fsRead_alloc_ne env fs ctr output_file input_file hne
            | true =>
                cases hpy : env.pydub input_file with
                | succeeded c =>
                    simp only [convert_to_wav, hex, hwav, hpav, hpy, Bool.not_true,
                      Bool.not_false, Bool.false_eq_true, if_false, if_true]
                    rw [fsRead_fsWrite_ne _ _ _ _ hne]
                    exact fsRead_alloc_ne env fs ctr output_file input_file hne
                | raised w =>
                    simp only [convert_to_wav, hex, hwav, hpav, hpy, Bool.not_true,
                      Bool.not_false, Bool.false_eq_true, if_false, if_true]
                    rw [with_ffmpeg_fsRead_ne env _ _ input_file _ input_file quiet hne]
                    cases w with
                    | some cw =>
                        rw [fsRead_fsWrite_ne _ _ _ _ hne]
                        exact fsRead_alloc_ne env fs ctr output_file input_file hne
                    | none => exact fsRead_alloc_ne env fs ctr output_file input_file hne
  exact ⟨main, by rw [fsExists_eq_isSome_fsRead, fsExists_eq_isSome_fsRead, main]⟩

/-- C7 witness for the amended claim: destination `out.wav` differs from
input `song.mp3`; even with pydub absent and the FFmpeg subprocess failing
(the most destructive path), the input is untouched. -/
theorem C7_input_preserved_witness :
    destPath envFfFail 0 (some "out.wav") ≠ "song.mp3" ∧
    (fsRead (convert_to_wav envFfFail fsDemo 0 "song.mp3" (some "out.wav") true).fs
        "song.mp3" = fsRead fsDemo "song.mp3" ∧
      fsExists (convert_to_wav envFfFail fsDemo 0 "song.mp3" (some "out.wav") true).fs
        "song.mp3" = fsExists fsDemo "song.mp3") :=
  ⟨by decide,
    C7_input_preserved envFfFail fsDemo 0 "song.mp3" (some "out.wav") true (by decide)⟩

end AudioConversion
